import Mathlib

set_option maxHeartbeats 1000000

/-!
Shallow embedding of the audio analysis core of `src/back.py`.

The program has three parts with algorithmic content:

* `compute_spectral_flatness` — geometric/arithmetic mean ratio of a
  magnitude spectrum, floor-clamped at `1e-12` and clipped to `[0, 1]`;
* `analyze_audio_features` — windowed real-FFT feature extraction
  (rms, band-energy ratios, centroid, flatness, low-band peakiness);
* `compute_environmental_score` — a rule-based threshold classifier
  producing an integer score in `[0, 100]`, a note string, diagnostic
  sub-scores and a boat flag.

Floating-point scalars are embedded as elements of a linear ordered
field: the extraction pipeline (which needs `cos`, `exp`, `log`,
`sqrt` and complex magnitudes) is embedded over `ℝ`, while the scorer
— whose arithmetic is exact threshold comparison plus integer
accumulation — is stated generically over any `LinearOrderedField`
and instantiated at `ℚ` (every finite double is a rational, so
`ℚ`-universality covers every float input) and at `ℝ` inside the
pipeline.  All score accumulators are integers in the source and are
embedded as `ℤ`.  The HTTP route `analyze` is embedded as an
`Except`-valued function: its `400` rejection of empty audio becomes
the `Except.error` branch.
-/

/-! ### Shared helper: `compute_spectral_flatness` (back.py lines 12-19) -/

/-- Embedding of `compute_spectral_flatness`: every magnitude is
floor-clamped to `eps = 1e-12`, the geometric mean is computed as
`exp (mean (log mags))`, and the ratio of geometric to arithmetic mean
is clipped to `[0, 1]` (`np.clip (f, 0, 1) = min (max f 0) 1`). -/
noncomputable def compute_spectral_flatness (mags : List ℝ) : ℝ :=
  let m := mags.map (fun x => max x 1e-12)
  let geometric_mean := Real.exp ((m.map Real.log).sum / m.length)
  let arithmetic_mean := m.sum / m.length
  min (max (geometric_mean / (arithmetic_mean + 1e-12)) 0) 1

/-! ### Feature extraction: `analyze_audio_features` (back.py lines 22-87)

The waveform is modelled as a mono `List ℝ` (the stereo-to-mono mean
of line 26-27 happens before the part the claims are about).  The
real FFT of numpy (`np.fft.rfft`) is embedded as the discrete Fourier
transform bins `k = 0 .. N/2` of the padded signal, with
`freqs k = k * sr / N` exactly as `np.fft.rfftfreq`. -/

def SAMPLE_COUNT : ℕ := 16384

/-- Hann window `np.hanning n`: `0.5 - 0.5 cos (2 pi k / (n - 1))`,
with the numpy convention `np.hanning 1 = [1]`. -/
noncomputable def hann (n : ℕ) (k : ℕ) : ℝ :=
  if n ≤ 1 then 1 else 0.5 - 0.5 * Real.cos (2 * Real.pi * k / ((n : ℝ) - 1))

/-- The windowed signal `waveform * np.hanning (len waveform)`. -/
noncomputable def windowed (w : List ℝ) : List ℝ :=
  (List.range w.length).map (fun k => w.getD k 0 * hann w.length k)

/-- FFT size `2 ^ ceil (log2 n)`: the least power of two at or above `n`. -/
def fftSize (n : ℕ) : ℕ := 2 ^ Nat.clog 2 n

/-- Truncation to the first `SAMPLE_COUNT` samples, Hann windowing, and
zero padding up to the FFT size (back.py lines 29-43). -/
noncomputable def padded (w : List ℝ) : List ℝ :=
  let v := windowed (w.take SAMPLE_COUNT)
  v ++ List.replicate (fftSize v.length - v.length) 0

/-- Bin `k` of the discrete Fourier transform of a real signal:
`X k = sum over n of x n * exp (-2 pi i k n / N)`. -/
noncomputable def dft (x : List ℝ) (k : ℕ) : ℂ :=
  ∑ n ∈ Finset.range x.length,
    (x.getD n 0 : ℂ) * Complex.exp (-(2 * Real.pi * Complex.I * k * n / x.length))

/-- Magnitude spectrum `np.abs (np.fft.rfft padded)`: bins `0 .. N/2`. -/
noncomputable def spectrumMags (w : List ℝ) : List ℝ :=
  (List.range ((padded w).length / 2 + 1)).map (fun k => Complex.abs (dft (padded w) k))

/-- Frequency grid `np.fft.rfftfreq (N, 1/sr)`: `k * sr / N` for bins `0 .. N/2`. -/
noncomputable def spectrumFreqs (w : List ℝ) (sr : ℝ) : List ℝ :=
  (List.range ((padded w).length / 2 + 1)).map
    (fun (k : ℕ) => (k : ℝ) * sr / ((padded w).length : ℝ))

/-- The `(frequency, magnitude)` pairs the band masks of lines 52-62 range over. -/
noncomputable def spectrum_pairs (w : List ℝ) (sr : ℝ) : List (ℝ × ℝ) :=
  (spectrumFreqs w sr).zip (spectrumMags w)

/-- Total spectral energy `np.sum (mags ** 2)` (without the `1e-12` guard). -/
noncomputable def spectralEnergy (w : List ℝ) : ℝ :=
  ((spectrumMags w).map (fun m => m ^ 2)).sum

/-- Low band ratio: energy at `f < 300` over total energy plus `1e-12`. -/
noncomputable def low_ratio (w : List ℝ) (sr : ℝ) : ℝ :=
  ((spectrum_pairs w sr).map (fun p => if p.1 < 300 then p.2 ^ 2 else 0)).sum /
    (spectralEnergy w + 1e-12)

/-- Mid band ratio: energy at `300 ≤ f < 3000` over total energy plus `1e-12`. -/
noncomputable def mid_ratio (w : List ℝ) (sr : ℝ) : ℝ :=
  ((spectrum_pairs w sr).map (fun p => if 300 ≤ p.1 ∧ p.1 < 3000 then p.2 ^ 2 else 0)).sum /
    (spectralEnergy w + 1e-12)

/-- High band ratio: energy at `f ≥ 3000` over total energy plus `1e-12`. -/
noncomputable def high_ratio (w : List ℝ) (sr : ℝ) : ℝ :=
  ((spectrum_pairs w sr).map (fun p => if 3000 ≤ p.1 then p.2 ^ 2 else 0)).sum /
    (spectralEnergy w + 1e-12)

/-- Root mean square of the truncated, un-windowed samples (line 34). -/
noncomputable def rms_of (w : List ℝ) : ℝ :=
  Real.sqrt (((w.take SAMPLE_COUNT).map (fun x => x ^ 2)).sum / ((w.take SAMPLE_COUNT).length : ℝ))

/-- Spectral centroid `sum (freqs * mags) / (sum mags + 1e-12)` (line 65). -/
noncomputable def spectral_centroid (w : List ℝ) (sr : ℝ) : ℝ :=
  ((spectrum_pairs w sr).map (fun p => p.1 * p.2)).sum / ((spectrumMags w).sum + 1e-12)

/-- Low-band peakiness `max lowMags / (mean lowMags + 1e-12)`, defined as
`1` when the low band holds no bins (lines 70-77). -/
noncomputable def low_peakiness (w : List ℝ) (sr : ℝ) : ℝ :=
  let lm := ((spectrum_pairs w sr).filter (fun p => decide (p.1 < 300))).map Prod.snd
  if lm.length = 0 then 1 else lm.foldr max 0 / (lm.sum / (lm.length : ℝ) + 1e-12)

/-- The seven named scalar features, field order as in the result dict of
back.py lines 79-87. -/
structure FeatureVector (α : Type) where
  rms : α
  lowRatio : α
  midRatio : α
  highRatio : α
  centroid : α
  flatness : α
  lowPeakiness : α

/-- Embedding of `analyze_audio_features` on a mono waveform. -/
noncomputable def analyze_audio_features (w : List ℝ) (sr : ℝ) : FeatureVector ℝ :=
  ⟨rms_of w, low_ratio w sr, mid_ratio w sr, high_ratio w sr,
    spectral_centroid w sr, compute_spectral_flatness (spectrumMags w), low_peakiness w sr⟩

/-! ### Scorer: `compute_environmental_score` (back.py lines 90-224) -/

/-- The result record of back.py lines 217-224, field order as in the dict. -/
structure ScoreResult where
  score : ℤ
  note : String
  humpbackScore : ℤ
  orcaScore : ℤ
  boatPenalty : ℤ
  isBoat : Bool

variable {α : Type} [LinearOrderedField α]

/-- Humpback pattern accumulation (lines 104-122).  The two `lowRatio`
thresholds are separate `if` statements and can both fire; the
`flatness`, `lowPeakiness` and `centroid` tiers are `if`/`elif`. -/
def humpback_score (f : FeatureVector α) : ℤ :=
  (if f.lowRatio > 0.6 then 10 else 0) +
  (if f.lowRatio > 0.5 then 6 else 0) +
  (if f.flatness < 0.2 then 12 else if f.flatness < 0.3 then 8 else 0) +
  (if f.lowPeakiness > 3.5 then 10 else if f.lowPeakiness > 2.5 then 6 else 0) +
  (if f.centroid < 1000 then 8 else if f.centroid < 1500 then 5 else 0) +
  (if f.midRatio < 0.3 then 5 else 0)

/-- Orca pattern accumulation (lines 125-139), seven independent open
interval tests. -/
def orca_score (f : FeatureVector α) : ℤ :=
  (if 0.15 < f.highRatio ∧ f.highRatio < 0.4 then 10 else 0) +
  (if 0.25 < f.flatness ∧ f.flatness < 0.55 then 8 else 0) +
  (if 0.25 < f.midRatio ∧ f.midRatio < 0.5 then 8 else 0) +
  (if 0.2 < f.lowRatio ∧ f.lowRatio < 0.6 then 7 else 0) +
  (if 1000 < f.centroid ∧ f.centroid < 3000 then 8 else 0) +
  (if 1.5 < f.lowPeakiness ∧ f.lowPeakiness < 4 then 5 else 0) +
  (if 0.01 < f.rms ∧ f.rms < 0.08 then 5 else 0)

/-- Boat classification disjunction (lines 145-150). -/
def is_boat (f : FeatureVector α) : Bool :=
  decide (f.flatness > 0.5 ∨ (f.centroid > 2000 ∧ f.lowPeakiness < 2.5) ∨
    (f.midRatio > 0.4 ∧ f.flatness > 0.45) ∨ f.rms > 0.08)

/-- Boat penalty accumulation (lines 152-192): only when `is_boat`; each
feature contributes at most one tier, different features stack. -/
def boat_score (f : FeatureVector α) : ℤ :=
  if is_boat f then
    (if f.flatness > 0.7 then -60 else if f.flatness > 0.6 then -50
      else if f.flatness > 0.5 then -40 else if f.flatness > 0.4 then -30 else 0) +
    (if f.centroid > 4000 then -40 else if f.centroid > 3000 then -35
      else if f.centroid > 2500 then -30 else if f.centroid > 2000 then -20 else 0) +
    (if f.lowPeakiness < 1.5 then -30 else if f.lowPeakiness < 2.0 then -25
      else if f.lowPeakiness < 2.5 then -15 else 0) +
    (if f.midRatio > 0.5 then -30 else if f.midRatio > 0.4 then -20 else 0) +
    (if f.highRatio > 0.35 then -25 else 0) +
    (if f.rms > 0.15 then -30 else if f.rms > 0.1 then -20
      else if f.rms > 0.08 then -10 else 0)
  else 0

/-- Combination step (lines 195-196): `50 + max humpback orca + boat`. -/
def raw_score (f : FeatureVector α) : ℤ :=
  50 + max (humpback_score f) (orca_score f) + boat_score f

/-- Caps of lines 198-207: boat cap at 30, non-boat cap at 95, then
`np.clip (score, 0, 100)`; the value is an integer throughout, so the
final `int` truncation of line 207 is the identity. -/
def final_score (f : FeatureVector α) : ℤ :=
  let s1 := raw_score f
  let s2 := if is_boat f = true ∧ 30 < s1 then min 30 s1 else s1
  let s3 := if is_boat f = false ∧ 95 < s2 then 95 else s2
  min (max s3 0) 100

/-- Note selection on the final integer score (lines 209-215). -/
def note_for (s : ℤ) : String :=
  if s ≥ 80 then "High: Strong marine mammal vocalizations detected (healthy environment)."
  else if s ≥ 40 then "Medium: Moderate marine activity or mixed signals with some noise."
  else "Low: Significant pollution (boat/engine noise) or minimal biological activity."

/-- Embedding of `compute_environmental_score` (lines 90-224). -/
def compute_environmental_score (f : FeatureVector α) : ScoreResult :=
  ⟨final_score f, note_for (final_score f),
    humpback_score f, orca_score f, boat_score f, is_boat f⟩

/-! ### HTTP route `analyze` (back.py lines 227-255), after decoding

The route rejects an empty decoded sample array with a 400 error
(lines 240-241) before any extraction; otherwise it extracts features
and scores them.  Decoding failures (lines 235-238) happen before the
array exists and are outside the embedded core. -/

/-- Embedding of the route body from line 240 on: the 400 rejection of
empty audio is the `Except.error` branch. -/
noncomputable def analyze (w : List ℝ) (sr : ℝ) :
    Except String (FeatureVector ℝ × ScoreResult) :=
  if w.length = 0 then Except.error "empty audio"
  else
    let features := analyze_audio_features w sr
    Except.ok (features, compute_environmental_score features)

/-! ## Helper lemmas -/

/-- Pointwise band trichotomy: each frequency falls in exactly one of the
three bands, so the three indicator energies sum to the bin energy. -/
lemma band_indicator_split (p : ℝ × ℝ) :
    (if p.1 < 300 then p.2 ^ 2 else 0) + (if 300 ≤ p.1 ∧ p.1 < 3000 then p.2 ^ 2 else 0) +
      (if 3000 ≤ p.1 then p.2 ^ 2 else 0) = p.2 ^ 2 := by
  rcases lt_or_le p.1 300 with h1 | h1
  · rw [if_pos h1, if_neg (fun hc => absurd hc.1 (not_le.mpr h1)),
      if_neg (not_le.mpr (by linarith)), add_zero, add_zero]
  · rcases lt_or_le p.1 3000 with h2 | h2
    · rw [if_neg (not_lt.mpr h1), if_pos ⟨h1, h2⟩, if_neg (not_le.mpr h2),
        zero_add, add_zero]
    · rw [if_neg (not_lt.mpr h1), if_neg (fun hc => absurd hc.2 (not_lt.mpr h2)),
        if_pos h2, zero_add, zero_add]

/-- Band energies over a pair list sum to the total energy over that list. -/
lemma band_sum_split (l : List (ℝ × ℝ)) :
    (l.map (fun p => if p.1 < 300 then p.2 ^ 2 else 0)).sum +
      (l.map (fun p => if 300 ≤ p.1 ∧ p.1 < 3000 then p.2 ^ 2 else 0)).sum +
      (l.map (fun p => if 3000 ≤ p.1 then p.2 ^ 2 else 0)).sum =
      (l.map (fun p => p.2 ^ 2)).sum := by
  induction l with
  | nil => simp
  | cons a t ih =>
    simp only [List.map_cons, List.sum_cons]
    have h := band_indicator_split a
    linarith

/-- Frequency and magnitude lists have equal length. -/
lemma length_spectrumFreqs (w : List ℝ) (sr : ℝ) :
    (spectrumFreqs w sr).length = (spectrumMags w).length := by
  unfold spectrumFreqs spectrumMags
  simp only [List.length_map]

/-- Second components of the zipped spectrum pairs are the magnitudes. -/
lemma pairs_snd (w : List ℝ) (sr : ℝ) :
    (spectrum_pairs w sr).map Prod.snd = spectrumMags w :=
  List.map_snd_zip _ _ (le_of_eq (length_spectrumFreqs w sr).symm)

/-- Total energy over the pairs equals `spectralEnergy`. -/
lemma pairs_energy (w : List ℝ) (sr : ℝ) :
    ((spectrum_pairs w sr).map (fun p => p.2 ^ 2)).sum = spectralEnergy w := by
  have h : (fun p : ℝ × ℝ => p.2 ^ 2) = (fun m : ℝ => m ^ 2) ∘ Prod.snd := rfl
  rw [h, ← List.map_map, pairs_snd, spectralEnergy]

/-- Boat branch facts: once the boat flag holds, the capped score is at
most 30, and exactly 30 whenever the raw combined score exceeds 30. -/
lemma boat_cap_facts {α : Type} [LinearOrderedField α] (f : FeatureVector α)
    (h : is_boat f = true) :
    final_score f ≤ 30 ∧ (30 < raw_score f → final_score f = 30) := by
  unfold final_score
  rw [h]
  simp only [true_and, Bool.true_eq_false, false_and, if_false]
  split_ifs with h1 <;> exact ⟨by omega, fun hr => by omega⟩

/-- No-boat branch facts: the capped score is at most 95, and exactly 95
whenever the raw combined score exceeds 95. -/
lemma no_boat_cap_facts {α : Type} [LinearOrderedField α] (f : FeatureVector α)
    (h : is_boat f = false) :
    final_score f ≤ 95 ∧ (95 < raw_score f → final_score f = 95) := by
  unfold final_score
  rw [h]
  simp only [Bool.false_eq_true, false_and, if_false, true_and]
  split_ifs with h1 <;> exact ⟨by omega, fun hr => by omega⟩

/-- Note thresholds as three implications on an arbitrary integer score. -/
lemma note_for_cases (s : ℤ) :
    (80 ≤ s →
      note_for s = "High: Strong marine mammal vocalizations detected (healthy environment).") ∧
    (40 ≤ s ∧ s < 80 →
      note_for s = "Medium: Moderate marine activity or mixed signals with some noise.") ∧
    (s < 40 →
      note_for s = "Low: Significant pollution (boat/engine noise) or minimal biological activity.") := by
  unfold note_for
  refine ⟨?_, ?_, ?_⟩ <;> intro h <;> split_ifs <;> first | rfl | omega

/-- Windowing the one-sample silent waveform gives the zero signal. -/
lemma windowed_zero1 : windowed [(0:ℝ)] = [0] := by
  simp [windowed, List.range_succ, List.range_zero]

/-- Padding the one-sample silent waveform gives the zero signal. -/
lemma padded_zero1 : padded [(0:ℝ)] = [0] := by
  unfold padded
  rw [List.take_of_length_le (by norm_num [SAMPLE_COUNT]), windowed_zero1]
  norm_num [fftSize, Nat.clog_one_right]

/-- Every DFT bin of the zero signal is zero. -/
lemma dft_zero1 (k : ℕ) : dft [(0:ℝ)] k = 0 := by
  simp [dft]

/-- The magnitude spectrum of the one-sample silent waveform is zero. -/
lemma spectrumMags_zero1 : spectrumMags [(0:ℝ)] = [0] := by
  unfold spectrumMags
  rw [padded_zero1]
  norm_num [dft_zero1, List.range_succ, List.range_zero]

/-- All three band ratios vanish on the one-sample silent waveform. -/
lemma ratios_zero1 (sr : ℝ) :
    low_ratio [(0:ℝ)] sr = 0 ∧ mid_ratio [(0:ℝ)] sr = 0 ∧ high_ratio [(0:ℝ)] sr = 0 := by
  refine ⟨?_, ?_, ?_⟩ <;>
    simp [low_ratio, mid_ratio, high_ratio, spectrum_pairs, spectrumFreqs,
      spectrumMags_zero1, padded_zero1, List.range_succ, List.range_zero]

/-- Windowing the unit one-sample waveform keeps it (the length-one Hann
window is the numpy special case `[1]`). -/
lemma windowed_one1 : windowed [(1:ℝ)] = [1] := by
  simp [windowed, hann, List.range_succ, List.range_zero]

/-- Padding the unit one-sample waveform keeps it (FFT size 1). -/
lemma padded_one1 : padded [(1:ℝ)] = [1] := by
  unfold padded
  rw [List.take_of_length_le (by norm_num [SAMPLE_COUNT]), windowed_one1]
  norm_num [fftSize, Nat.clog_one_right]

/-- The zeroth DFT bin of the unit one-sample signal is one. -/
lemma dft_one1 : dft [(1:ℝ)] 0 = 1 := by
  simp [dft]

/-- The magnitude spectrum of the unit one-sample waveform is `[1]`. -/
lemma spectrumMags_one1 : spectrumMags [(1:ℝ)] = [1] := by
  unfold spectrumMags
  rw [padded_one1]
  norm_num [dft_one1, List.range_succ, List.range_zero]

/-- The unit one-sample waveform carries spectral energy one. -/
lemma spectralEnergy_one1 : spectralEnergy [(1:ℝ)] = 1 := by
  simp [spectralEnergy, spectrumMags_one1]

/-! ## Claims -/

/-- C1: the analysis pipeline rejects every empty waveform with an error
(the 400 "empty audio" rejection of back.py lines 240-241, the
realisation of the InvalidInputError of the design) and never returns a
fabricated FeatureVector for it. -/
theorem C1_empty_waveform_rejected (sr : ℝ) :
    analyze [] sr = Except.error "empty audio" := by
  simp [analyze]

/-- C2 counterexample: a feature vector with strong low band, tonal
flatness, high peakiness, low centroid and small mid ratio fires both
lowRatio bonuses and the top tier of every other block, accumulating a
humpback score of 51, which exceeds the stated upper bound of 35. -/
theorem C2_counterexample :
    35 < (compute_environmental_score
      (⟨0.05, 0.7, 0.2, 0.1, 500, 0.1, 4⟩ : FeatureVector ℚ)).humpbackScore := by
  norm_num [compute_environmental_score, humpback_score]

/-- C2 amended: the accumulated humpback pattern score never exceeds 51
(10 + 6 from the two independent lowRatio bonuses, plus the top tiers
12, 10, 8 and the flat 5), and 51 is attained; the "upper bound 35" of
the claim is not an invariant of the code. -/
theorem C2_humpback_bounded (f : FeatureVector ℚ) :
    (compute_environmental_score f).humpbackScore ≤ 51 := by
  show humpback_score f ≤ 51
  unfold humpback_score
  split_ifs <;> omega

/-- C3 counterexample: the all-zero one-sample waveform is non-empty, yet
its spectrum is identically zero, so each band ratio is 0 / 1e-12 = 0 and
the ratio sum is 0, at distance 1 from 1.0 — far outside the 1e-6
tolerance.  The claim fails for silent (and near-silent) waveforms. -/
theorem C3_counterexample :
    1e-6 < |(analyze_audio_features [(0:ℝ)] 16000).lowRatio +
      (analyze_audio_features [(0:ℝ)] 16000).midRatio +
      (analyze_audio_features [(0:ℝ)] 16000).highRatio - 1| := by
  have h := ratios_zero1 16000
  show (1e-6:ℝ) <
    |low_ratio [(0:ℝ)] 16000 + mid_ratio [(0:ℝ)] 16000 + high_ratio [(0:ℝ)] 16000 - 1|
  rw [h.1, h.2.1, h.2.2]
  rw [show (0:ℝ) + 0 + 0 - 1 = -1 by norm_num, abs_neg, abs_one]
  norm_num

/-- C3 amended: for every waveform whose magnitude spectrum carries total
energy at least 1e-6 — in particular every waveform with non-negligible
signal — the three band ratios sum to within 1e-6 of 1.0; for silent or
near-silent waveforms the sum falls below that tolerance because of the
1e-12 guard in the denominator. -/
theorem C3_ratio_sum_near_one (w : List ℝ) (sr : ℝ) (hE : 1e-6 ≤ spectralEnergy w) :
    |(analyze_audio_features w sr).lowRatio + (analyze_audio_features w sr).midRatio +
      (analyze_audio_features w sr).highRatio - 1| ≤ 1e-6 := by
  have hpos : (0:ℝ) < spectralEnergy w + 1e-12 := by linarith
  show |low_ratio w sr + mid_ratio w sr + high_ratio w sr - 1| ≤ 1e-6
  unfold low_ratio mid_ratio high_ratio
  rw [div_add_div_same, div_add_div_same, band_sum_split, pairs_energy]
  rw [div_sub_one (ne_of_gt hpos)]
  rw [show spectralEnergy w - (spectralEnergy w + 1e-12) = -(1e-12) by ring]
  rw [abs_div, abs_neg, abs_of_pos (by norm_num : (0:ℝ) < 1e-12), abs_of_pos hpos]
  rw [div_le_iff₀ hpos]
  linarith

/-- C3 witness: the one-sample waveform `[1]` has spectral energy 1, and
the theorem applies to it. -/
theorem C3_witness :
    1e-6 ≤ spectralEnergy [(1:ℝ)] ∧
      |(analyze_audio_features [(1:ℝ)] 16000).lowRatio +
        (analyze_audio_features [(1:ℝ)] 16000).midRatio +
        (analyze_audio_features [(1:ℝ)] 16000).highRatio - 1| ≤ 1e-6 :=
  ⟨by rw [spectralEnergy_one1]; norm_num,
    C3_ratio_sum_near_one [(1:ℝ)] 16000 (by rw [spectralEnergy_one1]; norm_num)⟩

/-- C4: whenever the boat flag is set, the final returned score is at
most 30, and it is exactly 30 whenever the combined
`50 + animalScore + boatPenalty` exceeds 30 (back.py lines 198-207). -/
theorem C4_boat_capped_at_30 (f : FeatureVector ℚ)
    (h : (compute_environmental_score f).isBoat = true) :
    (compute_environmental_score f).score ≤ 30 ∧
      (30 < 50 + max (compute_environmental_score f).humpbackScore
          (compute_environmental_score f).orcaScore +
          (compute_environmental_score f).boatPenalty →
        (compute_environmental_score f).score = 30) := by
  have hb : is_boat f = true := h
  have hf := boat_cap_facts f hb
  show final_score f ≤ 30 ∧
    (30 < 50 + max (humpback_score f) (orca_score f) + boat_score f → final_score f = 30)
  exact ⟨hf.1, fun hr => hf.2 (by unfold raw_score; omega)⟩

/-- C4 witness: a loud tonal vector (rms just above the 0.08 boat
threshold, otherwise a strong humpback signature scoring 51 with boat
penalty -10) is classified as boat, its raw combined score 91 exceeds 30,
and the final score is exactly 30. -/
theorem C4_boat_capped_at_30_witness :
    (compute_environmental_score
      (⟨0.081, 0.7, 0.2, 0.1, 500, 0.1, 4⟩ : FeatureVector ℚ)).score = 30 :=
  (C4_boat_capped_at_30 _
    (by norm_num [compute_environmental_score, is_boat])).2
    (by norm_num [compute_environmental_score, humpback_score, orca_score,
      boat_score, is_boat, max_def])

/-- C5: whenever the boat flag is not set, the final returned score is at
most 95 (in particular it never reaches 100), and it is exactly 95
whenever the pre-clamp combined score exceeds 95 (back.py lines 202-207). -/
theorem C5_no_boat_capped_at_95 (f : FeatureVector ℚ)
    (h : (compute_environmental_score f).isBoat = false) :
    (compute_environmental_score f).score ≤ 95 ∧
      (95 < 50 + max (compute_environmental_score f).humpbackScore
          (compute_environmental_score f).orcaScore +
          (compute_environmental_score f).boatPenalty →
        (compute_environmental_score f).score = 95) := by
  have hb : is_boat f = false := h
  have hf := no_boat_cap_facts f hb
  show final_score f ≤ 95 ∧
    (95 < 50 + max (humpback_score f) (orca_score f) + boat_score f → final_score f = 95)
  exact ⟨hf.1, fun hr => hf.2 (by unfold raw_score; omega)⟩

/-- C5 witness: a quiet strong humpback vector (rms 0.05, humpback score
51, no boat condition fires) has raw combined score 101 above 95 and a
final score of exactly 95. -/
theorem C5_no_boat_capped_at_95_witness :
    (compute_environmental_score
      (⟨0.05, 0.7, 0.2, 0.1, 500, 0.1, 4⟩ : FeatureVector ℚ)).score = 95 :=
  (C5_no_boat_capped_at_95 _
    (by norm_num [compute_environmental_score, is_boat])).2
    (by norm_num [compute_environmental_score, humpback_score, orca_score,
      boat_score, is_boat, max_def])

/-- C6: the boat flag holds exactly when at least one of the four source
conditions of back.py lines 145-150 holds. -/
theorem C6_is_boat_iff (f : FeatureVector ℚ) :
    (compute_environmental_score f).isBoat = true ↔
      (f.flatness > 0.5 ∨ (f.centroid > 2000 ∧ f.lowPeakiness < 2.5) ∨
        (f.midRatio > 0.4 ∧ f.flatness > 0.45) ∨ f.rms > 0.08) := by
  show is_boat f = true ↔ _
  simp [is_boat]

/-- C7: the shared spectral flatness helper always lands in the closed
interval from 0 to 1: in the real-number embedding (which has no NaN or
infinity) the final clip of back.py line 19 forces the bound for every
magnitude list, the floor clamp to 1e-12 keeping every intermediate
quantity well defined. -/
theorem C7_flatness_in_unit_interval (mags : List ℝ) :
    0 ≤ compute_spectral_flatness mags ∧ compute_spectral_flatness mags ≤ 1 := by
  unfold compute_spectral_flatness
  exact ⟨le_min (le_max_right _ _) zero_le_one, min_le_right _ _⟩

/-- C8: the scorer is a total function and its final score is an integer
in the closed range 0 to 100; the score value is integral throughout the
source computation, so the truncation of back.py line 207 is the
identity and the bound comes from `np.clip (score, 0, 100)`. -/
theorem C8_score_in_range (f : FeatureVector ℚ) :
    0 ≤ (compute_environmental_score f).score ∧ (compute_environmental_score f).score ≤ 100 := by
  have h : ∀ s : ℤ, 0 ≤ min (max s 0) 100 ∧ min (max s 0) 100 ≤ 100 := fun s => by omega
  show 0 ≤ final_score f ∧ final_score f ≤ 100
  unfold final_score
  exact h _

/-- C9: the note string of the result is selected from exactly three
fixed strings by thresholds on the final integer score: High at 80 and
above, Medium from 40 up to 79, Low below 40 (back.py lines 209-215). -/
theorem C9_note_selection (f : FeatureVector ℚ) :
    (80 ≤ (compute_environmental_score f).score →
      (compute_environmental_score f).note =
        "High: Strong marine mammal vocalizations detected (healthy environment).") ∧
    (40 ≤ (compute_environmental_score f).score ∧ (compute_environmental_score f).score < 80 →
      (compute_environmental_score f).note =
        "Medium: Moderate marine activity or mixed signals with some noise.") ∧
    ((compute_environmental_score f).score < 40 →
      (compute_environmental_score f).note =
        "Low: Significant pollution (boat/engine noise) or minimal biological activity.") := by
  show (80 ≤ final_score f → note_for (final_score f) = _) ∧
    (40 ≤ final_score f ∧ final_score f < 80 → note_for (final_score f) = _) ∧
    (final_score f < 40 → note_for (final_score f) = _)
  exact note_for_cases (final_score f)

/-- C9 witness: the all-zero feature vector (silence) scores 75, which
lies in the Medium band, and the theorem yields the Medium note for it. -/
theorem C9_note_selection_witness :
    (compute_environmental_score (⟨0, 0, 0, 0, 0, 0, 0⟩ : FeatureVector ℚ)).note =
      "Medium: Moderate marine activity or mixed signals with some noise." :=
  (C9_note_selection _).2.1
    (by norm_num [compute_environmental_score, final_score, raw_score, humpback_score,
      orca_score, boat_score, is_boat, max_def, min_def])

/-- C10: whenever the boat flag is set the note is always the Low string,
because the boat cap forces the final score to at most 30, below the 40
threshold of the Medium note. -/
theorem C10_boat_note_low (f : FeatureVector ℚ)
    (h : (compute_environmental_score f).isBoat = true) :
    (compute_environmental_score f).note =
      "Low: Significant pollution (boat/engine noise) or minimal biological activity." := by
  have hb : is_boat f = true := h
  have h30 : final_score f ≤ 30 := (boat_cap_facts f hb).1
  show note_for (final_score f) = _
  unfold note_for
  split_ifs with h1 h2
  · exfalso; omega
  · exfalso; omega
  · rfl

/-- C10 witness: a flat broadband vector (flatness 0.8) is classified as
boat and the theorem yields the Low note for it. -/
theorem C10_boat_note_low_witness :
    (compute_environmental_score (⟨0, 0, 0, 0, 0, 0.8, 0⟩ : FeatureVector ℚ)).note =
      "Low: Significant pollution (boat/engine noise) or minimal biological activity." :=
  C10_boat_note_low _ (by norm_num [compute_environmental_score, is_boat])
